import Mathlib

/-!
Verification of the analysis-request pipeline of the PhishGuard browser
extension (`background.js`).  The definitions below are a shallow embedding
of the JavaScript source: pure helper functions (`extractAIAnalysis`,
`extractTechnicalAnalysis`) become Lean functions; the `analyzeWithRetry`
attempt loop becomes a fuel-indexed recursion over a trace of per-attempt
network events; JavaScript exceptions become `Except` values carrying the
error name and message; `JSON.parse` (a platform builtin, not repository
code) is a parameter `parse : String → Option ResponseData`.

JavaScript data conventions are embedded as follows: an absent (`undefined`)
object field is `Option.none`; JSON numbers are `Rat` (integral counter
fields are `Int`); truthiness of each field type is made explicit
(`jsOrStr`, `jsOrNum`, object/array fields are always truthy when present).
Number-to-string conversion `toFixed(1)` is idealized on exact rationals
(round to nearest tenth, ties up), and `undefined * 100` is rendered as
the string "NaN" exactly as JavaScript does.
-/

namespace PhishGuard

/-- Whitespace as matched by JavaScript `\s` / trimmed by `String.prototype.trim`
(ECMAScript WhiteSpace and LineTerminator code points). -/
def jsWhite (c : Char) : Bool :=
  c = ' ' || c = '\t' || c = '\n' || c = '\r' || c = '\x0b' || c = '\x0c' ||
  c = '\u00A0' || c = '\u1680' || ('\u2000' ≤ c && c ≤ '\u200A') ||
  c = '\u2028' || c = '\u2029' || c = '\u202F' || c = '\u205F' ||
  c = '\u3000' || c = '\uFEFF'

/-- JavaScript `String.prototype.trim`: strip leading and trailing whitespace. -/
def jsTrim (s : String) : String :=
  String.mk (((s.toList.dropWhile jsWhite).reverse.dropWhile jsWhite).reverse)

/-- Does `pat` occur at the head of `l`? -/
def startsWithL : List Char → List Char → Bool
  | [], _ => true
  | _ :: _, [] => false
  | a :: as, b :: bs => a = b && startsWithL as bs

/-- The suffix of `l` that follows the first occurrence of `pat`, when `pat`
occurs in `l` (leftmost match, as a JavaScript regex literal would find). -/
def afterSub (pat : List Char) : List Char → Option (List Char)
  | [] => if pat.isEmpty then some [] else none
  | c :: cs =>
    if startsWithL pat (c :: cs) then some ((c :: cs).drop pat.length)
    else afterSub pat cs

/-- JavaScript `String.prototype.includes`: substring containment. -/
def hasSub (s pat : String) : Bool :=
  (afterSub pat.toList s.toList).isSome

/-- UTF-16 code units a code point occupies (JavaScript string indexing). -/
def utf16Units (c : Char) : Nat :=
  if c.toNat < 65536 then 1 else 2

/-- Longest prefix of `l` that fits in `n` UTF-16 code units. -/
def takeUnits : Nat → List Char → List Char
  | _, [] => []
  | n, c :: cs =>
    if utf16Units c ≤ n then c :: takeUnits (n - utf16Units c) cs else []

/-- JavaScript `s.substring(0, n)`: the first `n` UTF-16 code units of `s`
(a code point split by the bound is dropped rather than kept as a lone
surrogate, which Lean strings cannot represent). -/
def jsSubstringTo (s : String) (n : Nat) : String :=
  String.mk (takeUnits n s.toList)

/-- JavaScript `(x * 100).toFixed(1)` idealized on exact rationals: round
`100 * q` to the nearest tenth, ties toward the larger value, and print it
with one decimal.  The rounded integer count of tenths is
`⌊1000q + 1/2⌋ = ⌊(2000·num + den) / (2·den)⌋`, computed by floor division
directly on the numerator and denominator. -/
def pctFixed1 (q : Rat) : String :=
  let n : Int := Int.fdiv (2000 * q.num + (q.den : Int)) (2 * (q.den : Int))
  let a : Nat := n.natAbs
  (if n < 0 then "-" else "") ++ toString (a / 10) ++ "." ++ toString (a % 10)

/-- JavaScript `String.prototype.toUpperCase`, idealized to ASCII case
mapping (the risk levels the backend sends are ASCII), written as a map
over the code points. -/
def jsToUpper (s : String) : String :=
  String.mk (s.toList.map Char.toUpper)

/-- JavaScript `x || d` for a string-valued field: `d` when the field is
absent or the empty string. -/
def jsOrStr (o : Option String) (d : String) : String :=
  match o with
  | some s => if s = "" then d else s
  | none => d

/-- JavaScript `x || d` for a number-valued field: `d` when the field is
absent or zero. -/
def jsOrNum (o : Option Rat) (d : Rat) : Rat :=
  match o with
  | some q => if q = 0 then d else q
  | none => d

/-- JavaScript truthiness of a boolean field: `false` when absent. -/
def truthyBool (o : Option Bool) : Bool :=
  match o with
  | some b => b
  | none => false

/-- JavaScript `x > 0` on an integral counter field: `false` when absent
(`undefined > 0` is `false`). -/
def countPos (o : Option Int) : Bool :=
  match o with
  | some n => 0 < n
  | none => false

/-- The `features` object of the backend's JSON response.  Every field is
optional; `none` is JavaScript `undefined`. -/
structure Features where
  has_ai_analysis : Option Bool := none
  ai_confidence : Option Rat := none
  ai_risk_assessment : Option String := none
  ai_detected_urls : Option Int := none
  ai_detected_urgent_phrases : Option Int := none
  ai_detected_credential_phrases : Option Int := none
  has_urgency : Option Bool := none
  has_suspicious_links : Option Bool := none
  has_credential_request : Option Bool := none
  has_typosquatting : Option Bool := none
  has_sender_spoofing : Option Bool := none
  has_homoglyph_chars : Option Bool := none
  has_poor_formatting : Option Bool := none
  has_suspicious_sender : Option Bool := none
deriving DecidableEq

/-- The `suspicious_elements` object of the backend's JSON response. -/
structure SuspiciousElements where
  urls : Option (List String) := none
  urgent_phrases : Option (List String) := none
  credential_phrases : Option (List String) := none
  technical_issues : Option (List String) := none
  ai_flags : Option (List String) := none
deriving DecidableEq

/-- A parsed JSON response body (`responseData` in `background.js`). -/
structure ResponseData where
  result : Option String := none
  risk_level : Option String := none
  risk_score : Option Rat := none
  features : Option Features := none
  suspicious_elements : Option SuspiciousElements := none
  detailed_analysis : Option String := none
  security_recommendations : Option (List String) := none
deriving DecidableEq

/-- A JavaScript `Error`-like value: its `name` and `message` properties. -/
structure JsError where
  name : String
  message : String
deriving DecidableEq

/-- Bulleted lines as built by the `forEach` loops: one `• item\n` per item. -/
def bulletLines (l : List String) : String :=
  String.join (l.map (fun f => "• " ++ f ++ "\n"))

/-- Bulleted lines with each item quoted: one `• "item"\n` per item. -/
def bulletLinesQuoted (l : List String) : String :=
  String.join (l.map (fun f => "• \"" ++ f ++ "\"\n"))

/-- The literal searched for by the regex `/🤖 AI Analysis:\s*(.*?)(?=...)/s`. -/
def aiLiteral : String := "🤖 AI Analysis:"

/-- Capture of the regex `/🤖 AI Analysis:\s*(.*?)(?=M1|M2|...|$)/s` on `text`:
after the first occurrence of the literal, skip the maximal whitespace run
(greedy `\s*`), then take characters lazily up to the first position where
one of `markers` starts (the lookahead), or to the end of the string.  The
regex matches exactly when the literal occurs, since `.` with the `s` flag
matches anything and `$` always terminates the lazy capture. -/
def takeUntilMarker (markers : List String) : List Char → List Char
  | [] => []
  | c :: cs =>
    if markers.any (fun m => startsWithL m.toList (c :: cs)) then []
    else c :: takeUntilMarker markers cs

/-- The capture group of the AI-analysis regex, `none` when the literal does
not occur in `text` (i.e. `match` returned `null`). -/
def aiCapture (markers : List String) (text : String) : Option String :=
  match afterSub aiLiteral.toList text.toList with
  | none => none
  | some rest => some (String.mk (takeUntilMarker markers (rest.dropWhile jsWhite)))

/-- The blocked-analysis message returned when the result text mentions
blocked AI analysis or safety filters (`background.js` line 50). -/
def blockedMsg : String :=
  "AI analysis was blocked by safety filters. This may indicate high-risk content."

/-- The fallback message when no AI analysis can be derived (line 53). -/
def notAvailableMsg : String :=
  "AI analysis not available - using rule-based detection only"

/-- Lines 48-53 of `background.js`: the blocked-message check on the result
text, else the not-available fallback. -/
def blockedOrDefault (resultText : String) : String :=
  if hasSub resultText "AI analysis was blocked" || hasSub resultText "safety filter" then
    blockedMsg
  else notAvailableMsg

/-- Lines 14-39 of `background.js`: the synthesized AI summary built when
`responseData.features && responseData.features.has_ai_analysis` is truthy. -/
def aiSummary (f : Features) (resultText : String) : String :=
  let confidence := jsOrNum f.ai_confidence 0
  let riskLevel := jsOrStr f.ai_risk_assessment "unknown"
  let analysis :=
    "AI Risk Assessment: " ++ jsToUpper riskLevel ++ " (" ++ pctFixed1 confidence
      ++ "% confidence)\n\n"
    ++ (if countPos f.ai_detected_urls then
          "🔗 AI detected " ++ toString (f.ai_detected_urls.getD 0) ++ " suspicious URL(s)\n"
        else "")
    ++ (if countPos f.ai_detected_urgent_phrases then
          "⚠️ AI detected " ++ toString (f.ai_detected_urgent_phrases.getD 0)
            ++ " urgent phrase(s)\n"
        else "")
    ++ (if countPos f.ai_detected_credential_phrases then
          "🔑 AI detected " ++ toString (f.ai_detected_credential_phrases.getD 0)
            ++ " credential request(s)\n"
        else "")
  match aiCapture ["\n📋"] resultText with
  | some c => if jsTrim c ≠ "" then analysis ++ "\n" ++ jsTrim c else analysis
  | none => analysis

/-- Lines 41-53 of `background.js`: the derivation attempted when neither the
`detailed_analysis` field nor the AI-features branch applies — the labeled
section extracted from the result text, else the blocked message, else the
not-available fallback. -/
def aiAnalysisTail (r : ResponseData) : String :=
  let resultText := jsOrStr r.result ""
  match aiCapture ["\n📋", "\n✅", "\n🚨"] resultText with
  | some c => if jsTrim c ≠ "" then jsTrim c else blockedOrDefault resultText
  | none => blockedOrDefault resultText

/-- Lines 13-53 of `background.js`: everything after the `detailed_analysis`
check in `extractAIAnalysis`. -/
def aiAnalysisRest (r : ResponseData) : String :=
  match r.features with
  | some f =>
    if truthyBool f.has_ai_analysis then aiSummary f (jsOrStr r.result "")
    else aiAnalysisTail r
  | none => aiAnalysisTail r

/-- Lines 7-54 of `background.js`: `extractAIAnalysis(responseData)`.  The
first branch fires when `responseData.detailed_analysis` is truthy and its
trimmed value is truthy (a non-empty string containing non-whitespace). -/
def extractAIAnalysis (r : ResponseData) : String :=
  match r.detailed_analysis with
  | some s => if s ≠ "" && jsTrim s ≠ "" then jsTrim s else aiAnalysisRest r
  | none => aiAnalysisRest r

/-- The V8 error raised by `undefined.toUpperCase()` at line 64 of
`background.js` when `features.ai_risk_assessment` is absent. -/
def toUpperTypeError : JsError :=
  ⟨"TypeError", "Cannot read properties of undefined (reading 'toUpperCase')"⟩

/-- Rendering of `(x * 100).toFixed(1)` when `x` may be `undefined`:
`undefined * 100` is `NaN` and `NaN.toFixed(1)` is the string `NaN`
(line 63 of `background.js` has no `|| 0` guard on `ai_confidence`). -/
def times100Fixed1 (o : Option Rat) : String :=
  match o with
  | none => "NaN"
  | some q => pctFixed1 q

/-- Lines 61-79 of `background.js`: the AI-powered block of
`extractTechnicalAnalysis`.  When `features.has_ai_analysis` is truthy but
`features.ai_risk_assessment` is absent, `.toUpperCase()` on `undefined`
throws a `TypeError`. -/
def techAIBlock (f : Features) : Except JsError String :=
  if truthyBool f.has_ai_analysis then
    match f.ai_risk_assessment with
    | none => Except.error toUpperTypeError
    | some ra =>
      let head :=
        "🤖 AI-Powered Technical Analysis:\n"
        ++ "• Confidence Score: " ++ times100Fixed1 f.ai_confidence ++ "%\n"
        ++ "• Risk Assessment: " ++ jsToUpper ra ++ "\n\n"
      let aiFeatures :=
        (if truthyBool f.has_urgency then ["Urgent/threatening language"] else [])
        ++ (if truthyBool f.has_suspicious_links then ["Suspicious URLs"] else [])
        ++ (if truthyBool f.has_credential_request then ["Credential requests"] else [])
      Except.ok (head ++
        (if aiFeatures.length > 0 then
          "🔍 AI-Detected Features:\n" ++ bulletLines aiFeatures ++ "\n"
        else ""))
  else Except.ok ""

/-- Lines 82-97 of `background.js`: the rule-based block of
`extractTechnicalAnalysis`. -/
def techRuleBlock (f : Features) : String :=
  let ruleFeatures :=
    (if truthyBool f.has_typosquatting then ["Domain typosquatting"] else [])
    ++ (if truthyBool f.has_sender_spoofing then ["Sender spoofing"] else [])
    ++ (if truthyBool f.has_homoglyph_chars then ["Homoglyph characters"] else [])
    ++ (if truthyBool f.has_poor_formatting then ["Poor formatting"] else [])
    ++ (if truthyBool f.has_suspicious_sender then ["Suspicious sender patterns"] else [])
  if ruleFeatures.length > 0 then
    "📋 Rule-Based Detection:\n" ++ bulletLines ruleFeatures ++ "\n"
  else ""

/-- One `slice(0, 3)`-style element listing of lines 103-134 of
`background.js`: header, the first three items (quoted or not), an
"... and N more" line when more than three, then a blank line. -/
def techElementList (header : String) (quoted : Bool) (o : Option (List String)) : String :=
  match o with
  | none => ""
  | some xs =>
    if xs.length > 0 then
      header
      ++ (if quoted then bulletLinesQuoted (xs.take 3) else bulletLines (xs.take 3))
      ++ (if xs.length > 3 then "• ... and " ++ toString (xs.length - 3) ++ " more\n" else "")
      ++ "\n"
    else ""

/-- Lines 100-143 of `background.js`: the suspicious-elements block of
`extractTechnicalAnalysis` (`ai_flags` are listed in full, not sliced). -/
def techSuspiciousBlock (e : SuspiciousElements) : String :=
  techElementList "🔗 Suspicious URLs (AI Detected):\n" false e.urls
  ++ techElementList "⚡ Urgent Language (AI Detected):\n" true e.urgent_phrases
  ++ techElementList "🔑 Credential Requests (AI Detected):\n" true e.credential_phrases
  ++ (match e.ai_flags with
      | none => ""
      | some xs =>
        if xs.length > 0 then "⚠️ AI System Flags:\n" ++ bulletLines xs ++ "\n" else "")

/-- Lines 145-148 of `background.js`: the final risk-assessment block, with
`risk_level || 'unknown'` and `risk_score || 0` defaults. -/
def techFinalBlock (r : ResponseData) : String :=
  let riskLevel := jsOrStr r.risk_level "unknown"
  let riskScore := jsOrNum r.risk_score 0
  "📊 Final Risk Assessment:\n• Level: " ++ jsToUpper riskLevel
    ++ "\n• Score: " ++ pctFixed1 riskScore ++ "%"

/-- Lines 57-151 of `background.js`: `extractTechnicalAnalysis(responseData)`.
Returns `Except.error` when the unguarded `.toUpperCase()` at line 64
throws; the final `analysis.trim() || '...'` fallback is line 150. -/
def extractTechnicalAnalysis (r : ResponseData) : Except JsError String :=
  let aiBlock :=
    match r.features with
    | some f => techAIBlock f
    | none => Except.ok ""
  match aiBlock with
  | Except.error e => Except.error e
  | Except.ok s1 =>
    let s2 := match r.features with
              | some f => techRuleBlock f
              | none => ""
    let s3 := match r.suspicious_elements with
              | some e => techSuspiciousBlock e
              | none => ""
    let analysis := s1 ++ s2 ++ s3 ++ techFinalBlock r
    Except.ok (if jsTrim analysis = "" then "No technical analysis data available"
               else jsTrim analysis)

/-- The `structuredData` object built at lines 208-219 of `background.js`. -/
structure StructuredData where
  risk_level : Option String
  risk_score : Option Rat
  result : Option String
  suspicious_elements : SuspiciousElements
  features : Features
  ai_analysis : String
  technical_analysis : String
  security_recommendations : List String
deriving DecidableEq

/-- The success value returned at lines 221-230 of `background.js`
(`success: true`, the structured data, and the legacy duplicate fields). -/
structure AnalyzeSuccess where
  success : Bool
  data : StructuredData
  report : Option String
  riskScore : Option Rat
  riskLevel : Option String
  suspiciousElements : SuspiciousElements
  features : Features
deriving DecidableEq

/-- Lines 207-230 of `background.js`: build the success return value from a
parsed response.  `x || {}` / `x || []` on object and array fields becomes
`Option.getD` (objects and arrays are always truthy in JavaScript), and the
`TypeError` possibly thrown inside `extractTechnicalAnalysis` propagates. -/
def buildStructured (rd : ResponseData) : Except JsError AnalyzeSuccess :=
  match extractTechnicalAnalysis rd with
  | Except.error e => Except.error e
  | Except.ok tech =>
    Except.ok
      { success := true
        data :=
          { risk_level := rd.risk_level
            risk_score := rd.risk_score
            result := rd.result
            suspicious_elements := rd.suspicious_elements.getD {}
            features := rd.features.getD {}
            ai_analysis := extractAIAnalysis rd
            technical_analysis := tech
            security_recommendations := rd.security_recommendations.getD [] }
        report := rd.result
        riskScore := rd.risk_score
        riskLevel := rd.risk_level
        suspiciousElements := rd.suspicious_elements.getD {}
        features := rd.features.getD {} }

/-- What one attempt's `fetch` (plus `response.text()`) produces: either a
rejection with a JavaScript error, or an HTTP status with the raw body text. -/
inductive AttemptEvent where
  | fetchErr (e : JsError)
  | response (status : Nat) (body : String)
deriving DecidableEq

/-- The error thrown at line 234 of `background.js` when the caught error is
named `AbortError`.  Note that a fetch aborted by `AbortSignal.timeout`
rejects with a `TimeoutError` DOMException, not an `AbortError`, so this
wrapped message is unreachable for the timeouts this program actually arms
(line 179); the branch would fire only for a manual `controller.abort()`,
which the source never performs. -/
def timeoutError : JsError :=
  ⟨"Error", "Request timed out. The server might be unavailable."⟩

/-- The error thrown at line 237 of `background.js` when the caught error is
a `TypeError` whose message mentions `Failed to fetch`. -/
def connectError : JsError :=
  ⟨"Error", "Could not connect to API server. Ensure the Python server is running."⟩

/-- The error thrown at line 195 of `background.js` for a body that is not
valid JSON on the final attempt. -/
def invalidJsonError (body : String) : JsError :=
  ⟨"Error", "Invalid JSON response: " ++ jsSubstringTo body 100 ++ "..."⟩

/-- The error thrown at line 204 of `background.js` for a non-2xx status. -/
def httpError (status : Nat) (body : String) : JsError :=
  ⟨"Error", "HTTP " ++ toString status ++ ": " ++ body⟩

/-- How one iteration of the attempt loop ends: return a success value,
propagate a thrown error out of the loop, or wait the fixed delay and retry. -/
inductive StepOut where
  | retn (v : AnalyzeSuccess)
  | thrown (e : JsError)
  | retry
deriving DecidableEq

/-- Lines 231-242 of `background.js`: the `catch` block.  An `AbortError` or
a `Failed to fetch` `TypeError` is rethrown (wrapped) immediately, whether or
not attempts remain; any other error is rethrown only on the last attempt
(`attempt === retryCount`) and otherwise leads to a delay and retry. -/
def handleCatch (e : JsError) (isLast : Bool) : StepOut :=
  if e.name = "AbortError" then StepOut.thrown timeoutError
  else if e.name = "TypeError" && hasSub e.message "Failed to fetch" then
    StepOut.thrown connectError
  else if isLast then StepOut.thrown e
  else StepOut.retry

/-- `response.ok`: status in 200-299. -/
def isOkStatus (status : Nat) : Bool :=
  200 ≤ status && status ≤ 299

/-- Lines 166-242 of `background.js`: the body of one iteration of the
attempt loop, given the attempt's network event and whether this is the last
attempt.  The `throw`s inside the `try` block (invalid JSON on the last
attempt, non-2xx status, the normalizer's `TypeError`) are routed through
the `catch` block, exactly as in the source. -/
def attemptStep (parse : String → Option ResponseData) (ev : AttemptEvent)
    (isLast : Bool) : StepOut :=
  match ev with
  | AttemptEvent.fetchErr e => handleCatch e isLast
  | AttemptEvent.response status body =>
    match parse body with
    | none =>
      if !isLast then StepOut.retry
      else handleCatch (invalidJsonError body) isLast
    | some rd =>
      if !(isOkStatus status) then
        if status == 500 && !isLast then StepOut.retry
        else handleCatch (httpError status body) isLast
      else
        match buildStructured rd with
        | Except.ok v => StepOut.retn v
        | Except.error e => handleCatch e isLast

instance {ε α : Type} [DecidableEq ε] [DecidableEq α] : DecidableEq (Except ε α) := fun a b =>
  match a, b with
  | Except.ok x, Except.ok y =>
    if h : x = y then isTrue (by rw [h]) else isFalse (by simp [h])
  | Except.error x, Except.error y =>
    if h : x = y then isTrue (by rw [h]) else isFalse (by simp [h])
  | Except.ok _, Except.error _ => isFalse (by simp)
  | Except.error _, Except.ok _ => isFalse (by simp)

/-- The observable outcome of a full `analyzeWithRetry` run: the settled
value of the promise (`none` when the loop falls through and the function
returns `undefined`, which needs `retryCount = 0`), the number of `fetch`
calls issued, and the list of delays awaited between attempts, in order. -/
structure RunResult where
  result : Option (Except JsError AnalyzeSuccess)
  calls : Nat
  waits : List Nat
deriving DecidableEq

/-- The `for (let attempt = 1; attempt <= retryCount; attempt++)` loop of
`analyzeWithRetry`, indexed by structural fuel (always sufficient when
started with `retryCount + 1`). -/
def runLoop (parse : String → Option ResponseData) (net : Nat → AttemptEvent)
    (retryCount delay : Nat) : Nat → Nat → RunResult
  | 0, _ => ⟨none, 0, []⟩
  | fuel + 1, attempt =>
    if attempt ≤ retryCount then
      match attemptStep parse (net attempt) (attempt == retryCount) with
      | StepOut.retn v => ⟨some (Except.ok v), 1, []⟩
      | StepOut.thrown e => ⟨some (Except.error e), 1, []⟩
      | StepOut.retry =>
        let rest := runLoop parse net retryCount delay fuel (attempt + 1)
        ⟨rest.result, rest.calls + 1, delay :: rest.waits⟩
    else ⟨none, 0, []⟩

/-- Lines 164-244 of `background.js`: `analyzeWithRetry(retryCount, delay)`,
run against a network trace `net` (the event each attempt number observes)
and the JSON parser `parse`. -/
def analyzeWithRetry (parse : String → Option ResponseData) (net : Nat → AttemptEvent)
    (retryCount delay : Nat) : RunResult :=
  runLoop parse net retryCount delay (retryCount + 1) 1

/-- What `sendResponse` receives from the message listener. -/
inductive HandlerOutcome where
  | errorResp (message : String)
  | successResp (v : AnalyzeSuccess)
  | undefinedResp
deriving DecidableEq

/-- The `sendResponse({ error: ... })` message for absent input (line 159). -/
def noContentMsg : String := "No email body provided for analysis."

/-- JavaScript truthiness of the `request.emailBody` string (line 158):
falsy when absent or empty. -/
def truthyStr (o : Option String) : Bool :=
  match o with
  | some s => s ≠ ""
  | none => false

/-- Lines 153-258 of `background.js`: the `analyze_email` message handler.
Empty or absent input is rejected before `analyzeWithRetry` is invoked
(zero network calls); otherwise the pipeline runs with the default
`retryCount = 3`, `delay = 1000` and its rejection is wrapped at line 252.
Returns the response sent together with the number of network calls made. -/
def handleAnalyzeEmail (emailBody : Option String)
    (parse : String → Option ResponseData) (net : Nat → AttemptEvent)
    (retryCount delay : Nat) : HandlerOutcome × Nat :=
  if !truthyStr emailBody then (HandlerOutcome.errorResp noContentMsg, 0)
  else
    let r := analyzeWithRetry parse net retryCount delay
    match r.result with
    | some (Except.ok v) => (HandlerOutcome.successResp v, r.calls)
    | some (Except.error e) =>
      (HandlerOutcome.errorResp ("Analysis failed: " ++ e.message ++ ". Please try again."),
        r.calls)
    | none => (HandlerOutcome.undefinedResp, r.calls)

/-- Does the parsed response take the AI-features branch of
`extractAIAnalysis` (`responseData.features && responseData.features.has_ai_analysis`)? -/
def hasAIFeaturesBranch (r : ResponseData) : Bool :=
  match r.features with
  | some f => truthyBool f.has_ai_analysis
  | none => false

/-- The `ai_analysis` derivation exactly as the specification words it
(spec 4.2): prefer the dedicated detailed-analysis field when present and
non-blank; else the labeled section extracted from the freeform result
string by the fixed delimiter pattern; else the dedicated blocked-analysis
message when the result text contains blocked/safety-filter phrases; else
the fixed not-available message.  Written from the spec's words, to be
compared with `extractAIAnalysis`, which is written from the source.
`claimedTailStages` is the cascade after the detailed-analysis stage. -/
def claimedTailStages (r : ResponseData) : String :=
  let resultText := jsOrStr r.result ""
  match aiCapture ["\n📋", "\n✅", "\n🚨"] resultText with
  | some c =>
    if jsTrim c ≠ "" then jsTrim c
    else if hasSub resultText "AI analysis was blocked"
            || hasSub resultText "safety filter" then blockedMsg
    else notAvailableMsg
  | none =>
    if hasSub resultText "AI analysis was blocked"
        || hasSub resultText "safety filter" then blockedMsg
    else notAvailableMsg

/-- The claimed four-stage preference order, completed by the dedicated
detailed-analysis stage in front of `claimedTailStages`. -/
def claimedAIAnalysis (r : ResponseData) : String :=
  match r.detailed_analysis with
  | some s => if jsTrim s ≠ "" then jsTrim s else claimedTailStages r
  | none => claimedTailStages r

/-- The `risk_score` field of the structured success data, when the run
settled successfully (`none` otherwise). -/
def resultRiskScore (r : RunResult) : Option (Option Rat) :=
  match r.result with
  | some (Except.ok v) => some v.data.risk_score
  | _ => none

/-- The `risk_level` field of the structured success data, when the run
settled successfully (`none` otherwise). -/
def resultRiskLevel (r : RunResult) : Option (Option String) :=
  match r.result with
  | some (Except.ok v) => some v.data.risk_level
  | _ => none

/-- Did the run settle with a success value? -/
def isSuccessRun (r : RunResult) : Bool :=
  match r.result with
  | some (Except.ok _) => true
  | _ => false

/-- A lookup-table JSON parser for concrete runs: the bodies in the table
parse to the paired object, everything else is invalid JSON. -/
def parseTable (tbl : List (String × ResponseData)) : String → Option ResponseData :=
  fun s => (tbl.find? (fun p => p.1 == s)).map Prod.snd

/-- A parser for which no body is valid JSON. -/
def parseAbsent : String → Option ResponseData := fun _ => none

/-- The empty JSON object response. -/
def rdEmpty : ResponseData := {}

/-- A response whose `features.has_ai_analysis` is `true` but whose
`features.ai_risk_assessment` is absent. -/
def rdHasAI : ResponseData := { features := some { has_ai_analysis := some true } }

/-- A response whose upstream `risk_score` is the out-of-range value 5. -/
def rdScore5 : ResponseData := { risk_score := some 5 }

/-- The rejection a fetch aborted by `AbortSignal.timeout` produces: a
`DOMException` named `TimeoutError` (Chrome's message is "signal timed
out").  `AbortError` is produced only by a manual `controller.abort()`,
which `background.js` never performs — so this, not an `AbortError`, is the
event a real per-attempt timeout delivers to the `catch` block. -/
def timeoutDOMException : JsError := ⟨"TimeoutError", "signal timed out"⟩

/-- A network trace in which every attempt's request times out. -/
def netTimeout : Nat → AttemptEvent :=
  fun _ => AttemptEvent.fetchErr timeoutDOMException

/-- A network trace in which every attempt's fetch fails to connect. -/
def netConnRefused : Nat → AttemptEvent :=
  fun _ => AttemptEvent.fetchErr ⟨"TypeError", "Failed to fetch"⟩

/-- A server answering 500 on attempts 1 and 2 and 200 on attempt 3. -/
def netC7 : Nat → AttemptEvent :=
  fun a => if a ≤ 2 then AttemptEvent.response 500 "e500body"
           else AttemptEvent.response 200 "okbody"

/-- A server answering 500 on every attempt. -/
def netAll500 : Nat → AttemptEvent :=
  fun _ => AttemptEvent.response 500 "e500body"

/-- The parser for the C7 scenarios: both bodies parse to the empty object. -/
def parseC7 : String → Option ResponseData :=
  parseTable [("e500body", {}), ("okbody", {})]

/-- A server answering 404 with a parseable body on every attempt. -/
def net404 : Nat → AttemptEvent :=
  fun _ => AttemptEvent.response 404 "notfound"

/-- The parser for the 404 scenario. -/
def parse404 : String → Option ResponseData := parseTable [("notfound", {})]

/-- A server answering 200 with the `rdHasAI` body on every attempt. -/
def netHasAI : Nat → AttemptEvent := fun _ => AttemptEvent.response 200 "aibody"

/-- The parser for the `rdHasAI` scenario. -/
def parseHasAI : String → Option ResponseData := parseTable [("aibody", rdHasAI)]

/-- A server answering 200 with the `rdScore5` body on every attempt. -/
def netScore5 : Nat → AttemptEvent := fun _ => AttemptEvent.response 200 "scorebody"

/-- The parser for the `rdScore5` scenario. -/
def parseScore5 : String → Option ResponseData := parseTable [("scorebody", rdScore5)]

/-- A server answering 200 with the empty-object body on every attempt. -/
def netEmpty200 : Nat → AttemptEvent := fun _ => AttemptEvent.response 200 "emptybody"

/-- The parser for the empty-object scenario. -/
def parseEmpty : String → Option ResponseData := parseTable [("emptybody", rdEmpty)]

/-- A server answering 200 with a body that is never valid JSON. -/
def netBadJson : Nat → AttemptEvent :=
  fun _ => AttemptEvent.response 200 "this is not json"

/-- A server answering 403 with a parseable body on every attempt. -/
def net403 : Nat → AttemptEvent :=
  fun _ => AttemptEvent.response 403 "forbidden"

/-- The parser for the 403 scenario. -/
def parse403 : String → Option ResponseData := parseTable [("forbidden", {})]

/-- A response whose `detailed_analysis` is present with surrounding blanks. -/
def rdPadded : ResponseData := { detailed_analysis := some "  hi  " }

/-- The expected success value for an empty-object 200 response: every
optional field defaulted, the not-available AI message, and the minimal
technical summary. -/
def v0 : AnalyzeSuccess :=
  { success := true
    data :=
      { risk_level := none
        risk_score := none
        result := none
        suspicious_elements := {}
        features := {}
        ai_analysis := notAvailableMsg
        technical_analysis := "📊 Final Risk Assessment:\n• Level: UNKNOWN\n• Score: 0.0%"
        security_recommendations := [] }
    report := none
    riskScore := none
    riskLevel := none
    suspiciousElements := {}
    features := {} }

/-! ## Helper lemmas about the attempt loop -/

/-- A non-2xx response whose body parses runs the loop to the last attempt:
every attempt before the last retries after the fixed delay — via the
`continue` for a 500, via the catch-all retry branch of the `catch` block for
any other status — and the last attempt throws the HTTP error. -/
theorem runLoop_nonOk (parse : String → Option ResponseData) (net : Nat → AttemptEvent)
    (s : Nat) (body : String) (rd : ResponseData) (delay : Nat)
    (hp : parse body = some rd) (hs : isOkStatus s = false) :
    ∀ k f attempt, k < f →
      (∀ a, net a = AttemptEvent.response s body) →
      runLoop parse net (attempt + k) delay f attempt =
        ⟨some (Except.error (httpError s body)), k + 1, List.replicate k delay⟩ := by
  intro k
  induction k with
  | zero =>
    intro f attempt hf hnet
    cases f with
    | zero => omega
    | succ f' =>
      simp only [runLoop, Nat.add_zero]
      rw [if_pos (Nat.le_refl attempt), hnet attempt]
      simp only [attemptStep, hp, hs, beq_self_eq_true, Bool.not_false, Bool.not_true,
        Bool.and_false, if_true, if_false, handleCatch]
      simp [httpError]
  | succ k ih =>
    intro f attempt hf hnet
    cases f with
    | zero => omega
    | succ f' =>
      have hne : (attempt == attempt + (k + 1)) = false :=
        beq_eq_false_iff_ne.mpr (by omega)
      simp only [runLoop]
      rw [if_pos (by omega : attempt ≤ attempt + (k + 1)), hnet attempt]
      simp only [attemptStep, hp, hs, hne, Bool.not_false, Bool.and_true, if_true]
      have hstep :
          (if (s == 500) = true then StepOut.retry
           else handleCatch (httpError s body) false) = StepOut.retry := by
        by_cases h5 : s == 500
        · rw [if_pos h5]
        · rw [if_neg h5]
          simp [handleCatch, httpError]
      rw [hstep]
      have harg : attempt + (k + 1) = (attempt + 1) + k := by omega
      rw [harg, ih f' (attempt + 1) (by omega) hnet]
      simp [List.replicate_succ]

/-- A body that never parses as JSON runs the loop to the last attempt,
retrying after the fixed delay each time, and the last attempt throws the
invalid-JSON error built from that attempt's raw body — whatever the HTTP
statuses were, since the parse check precedes the status check. -/
theorem runLoop_parseFail (parse : String → Option ResponseData) (net : Nat → AttemptEvent)
    (stat : Nat → Nat) (bod : Nat → String) (delay : Nat) :
    ∀ k f attempt, k < f →
      (∀ a, net a = AttemptEvent.response (stat a) (bod a)) →
      (∀ a, parse (bod a) = none) →
      runLoop parse net (attempt + k) delay f attempt =
        ⟨some (Except.error (invalidJsonError (bod (attempt + k)))), k + 1,
          List.replicate k delay⟩ := by
  intro k
  induction k with
  | zero =>
    intro f attempt hf hnet hparse
    cases f with
    | zero => omega
    | succ f' =>
      simp only [runLoop, Nat.add_zero]
      rw [if_pos (Nat.le_refl attempt), hnet attempt]
      simp only [attemptStep, hparse attempt, beq_self_eq_true, Bool.not_true, if_false,
        handleCatch]
      simp [invalidJsonError]
  | succ k ih =>
    intro f attempt hf hnet hparse
    cases f with
    | zero => omega
    | succ f' =>
      have hne : (attempt == attempt + (k + 1)) = false :=
        beq_eq_false_iff_ne.mpr (by omega)
      simp only [runLoop]
      rw [if_pos (by omega : attempt ≤ attempt + (k + 1)), hnet attempt]
      simp only [attemptStep, hparse attempt, hne, Bool.not_false, if_true]
      have harg : attempt + (k + 1) = (attempt + 1) + k := by omega
      rw [harg, ih f' (attempt + 1) (by omega) hnet hparse]
      simp [List.replicate_succ]

/-- An error whose name is neither `AbortError` nor `TypeError` takes the
catch-all path of the `catch` block: rethrown on the last attempt, delayed
and retried otherwise. -/
theorem handleCatch_catchall (e : JsError) (isLast : Bool)
    (h1 : e.name ≠ "AbortError") (h2 : e.name ≠ "TypeError") :
    handleCatch e isLast = if isLast then StepOut.thrown e else StepOut.retry := by
  unfold handleCatch
  rw [if_neg h1]
  simp [h2]

/-- A fetch rejection whose error is neither named `AbortError` nor
`TypeError` — in particular the `TimeoutError` DOMException that
`AbortSignal.timeout` produces — takes the catch-all path of the `catch`
block: every attempt before the last retries after the fixed delay, and the
last attempt rethrows the original error unwrapped. -/
theorem runLoop_fetchErr_catchall (parse : String → Option ResponseData)
    (net : Nat → AttemptEvent) (e : JsError) (delay : Nat)
    (h1 : e.name ≠ "AbortError") (h2 : e.name ≠ "TypeError") :
    ∀ k f attempt, k < f →
      (∀ a, net a = AttemptEvent.fetchErr e) →
      runLoop parse net (attempt + k) delay f attempt =
        ⟨some (Except.error e), k + 1, List.replicate k delay⟩ := by
  intro k
  induction k with
  | zero =>
    intro f attempt hf hnet
    cases f with
    | zero => omega
    | succ f' =>
      simp only [runLoop, Nat.add_zero]
      rw [if_pos (Nat.le_refl attempt), hnet attempt]
      simp only [attemptStep, handleCatch_catchall e _ h1 h2, beq_self_eq_true]
      simp
  | succ k ih =>
    intro f attempt hf hnet
    cases f with
    | zero => omega
    | succ f' =>
      have hne : (attempt == attempt + (k + 1)) = false :=
        beq_eq_false_iff_ne.mpr (by omega)
      simp only [runLoop]
      rw [if_pos (by omega : attempt ≤ attempt + (k + 1)), hnet attempt]
      simp only [attemptStep, handleCatch_catchall e _ h1 h2, hne, Bool.false_eq_true,
        if_false]
      have harg : attempt + (k + 1) = (attempt + 1) + k := by omega
      rw [harg, ih f' (attempt + 1) (by omega) hnet]
      simp [List.replicate_succ]

/-! ## Claim theorems -/

/-- C1 (counterexample).  The claim says a transport failure caused by the
per-attempt timeout is classified `Failure{kind=Timeout}`, and that other
transport failures retry while attempts remain.  In fact `AbortSignal.timeout`
rejects the fetch with a `TimeoutError` DOMException, which line 233's
`AbortError` test misses: the timed-out run is retried to exhaustion and
then rejects with the raw DOMException — not the classified timeout failure —
while a connection failure (`TypeError: Failed to fetch`) settles after one
call with no delay waited even though two attempts remain. -/
theorem transport_claim_counterexample :
    analyzeWithRetry parseAbsent netTimeout 3 1000 =
      ⟨some (Except.error timeoutDOMException), 3, [1000, 1000]⟩
    ∧ timeoutDOMException ≠ timeoutError
    ∧ analyzeWithRetry parseAbsent netConnRefused 3 1000 =
        ⟨some (Except.error connectError), 1, []⟩ :=
  ⟨rfl, by decide, rfl⟩

/-- C1 (amended).  The two transport failures behave oppositely to the
claim.  A per-attempt timeout rejects with a `TimeoutError` DOMException,
which matches neither special case of the `catch` block (line 233 tests for
`AbortError`, which `AbortSignal.timeout` never produces): it is retried
after the fixed delay while attempts remain and the final attempt returns
the raw, unclassified DOMException — the dedicated Timeout classification is
unreachable.  A connection failure (`TypeError` mentioning
`Failed to fetch`) is classified as the Network failure but returned
immediately on any attempt, with no retry even when attempts remain.
(`analyzeWithRetry parse net rc delay` is `runLoop parse net rc delay (rc + 1) 1`.) -/
theorem transport_failure_behavior
    (parse : String → Option ResponseData) (net : Nat → AttemptEvent)
    (e : JsError) (delay : Nat) :
    (∀ k, e.name = "TimeoutError" →
      (∀ a, net a = AttemptEvent.fetchErr e) →
      analyzeWithRetry parse net (k + 1) delay =
        ⟨some (Except.error e), k + 1, List.replicate k delay⟩)
    ∧ (∀ retryCount f attempt, attempt ≤ retryCount →
      net attempt = AttemptEvent.fetchErr e →
      e.name = "TypeError" → hasSub e.message "Failed to fetch" = true →
      runLoop parse net retryCount delay (f + 1) attempt =
        ⟨some (Except.error connectError), 1, []⟩) := by
  constructor
  · intro k hn hnet
    unfold analyzeWithRetry
    have h := runLoop_fetchErr_catchall parse net e delay
      (by rw [hn]; decide) (by rw [hn]; decide) k (k + 1 + 1) 1 (by omega) hnet
    rw [(by omega : 1 + k = k + 1)] at h
    exact h
  · intro retryCount f attempt ha hnet hn hmsg
    simp only [runLoop]
    rw [if_pos ha, hnet]
    simp [attemptStep, handleCatch, hn, hmsg]

/-- C1 (witness). -/
theorem transport_failure_behavior_witness :
    analyzeWithRetry parseAbsent netTimeout 3 1000 =
      ⟨some (Except.error timeoutDOMException), 3, List.replicate 2 1000⟩ :=
  (transport_failure_behavior parseAbsent netTimeout timeoutDOMException 1000).1
    2 rfl (fun _ => rfl)

/-- C2 (counterexample).  The claim says a non-2xx status other than 500 is
returned immediately with no further network attempts.  Here every attempt
answers 404 with a parseable body, yet the pipeline makes all 3 calls,
waiting the fixed delay twice, before settling with the server error. -/
theorem non500_error_is_retried :
    analyzeWithRetry parse404 net404 3 1000 =
      ⟨some (Except.error (httpError 404 "notfound")), 3, [1000, 1000]⟩ :=
  rfl

/-- C2 (amended).  Every non-2xx status — 500 or not — retries after the
fixed delay while attempts remain (a 500 via the explicit retry branch, any
other via the catch-all retry of the `catch` block), and only the final
attempt returns the server-error failure, whose message is
`HTTP <status>: <raw body>`. -/
theorem nonOk_status_retries_then_serverError
    (parse : String → Option ResponseData) (net : Nat → AttemptEvent)
    (s : Nat) (body : String) (rd : ResponseData) (k delay : Nat)
    (hp : parse body = some rd) (hs : isOkStatus s = false)
    (hnet : ∀ a, net a = AttemptEvent.response s body) :
    analyzeWithRetry parse net (k + 1) delay =
      ⟨some (Except.error (httpError s body)), k + 1, List.replicate k delay⟩ := by
  unfold analyzeWithRetry
  have h := runLoop_nonOk parse net s body rd delay hp hs k (k + 1 + 1) 1 (by omega) hnet
  rw [(by omega : 1 + k = k + 1)] at h
  exact h

/-- C2 (witness). -/
theorem nonOk_status_retries_then_serverError_witness :
    analyzeWithRetry parse403 net403 3 1000 =
      ⟨some (Except.error (httpError 403 "forbidden")), 3, List.replicate 2 1000⟩ :=
  nonOk_status_retries_then_serverError parse403 net403 403 "forbidden" {} 2 1000
    rfl (by decide) (fun _ => rfl)

/-- C3 (code bug).  The spec requires that normalization never fails merely
because optional fields are missing, and `extractAIAnalysis` indeed defaults
`ai_risk_assessment` — but `extractTechnicalAnalysis` calls `.toUpperCase()`
on it unguarded.  A 200 response whose body parses to
`{"features": {"has_ai_analysis": true}}` (no `ai_risk_assessment`) makes
the normalizer throw a `TypeError`, and the whole pipeline rejects with it
after exhausting all three attempts. -/
theorem missing_optional_field_throws :
    extractTechnicalAnalysis rdHasAI = Except.error toUpperTypeError
    ∧ analyzeWithRetry parseHasAI netHasAI 3 1000 =
        ⟨some (Except.error toUpperTypeError), 3, [1000, 1000]⟩ :=
  ⟨rfl, rfl⟩

/-- C4 (counterexample).  The claim says `risk_score` is always in [0,1],
clamped when the upstream value is out of range.  A 200 response with
upstream `risk_score = 5` produces a Success whose `risk_score` is still 5. -/
theorem risk_score_not_clamped :
    resultRiskScore (analyzeWithRetry parseScore5 netScore5 3 1000) = some (some 5)
    ∧ ¬((5 : Rat) ≤ 1) :=
  ⟨rfl, by norm_num⟩

/-- C4 (amended).  The success `risk_score` (both in the structured data and
in the legacy duplicate field) is the upstream value passed through
verbatim: absent when missing, unchanged — not clamped — when out of range.
Only the display text of the technical summary substitutes a default. -/
theorem risk_score_passes_through (rd : ResponseData) (v : AnalyzeSuccess)
    (h : buildStructured rd = Except.ok v) :
    v.data.risk_score = rd.risk_score ∧ v.riskScore = rd.risk_score := by
  unfold buildStructured at h
  cases htech : extractTechnicalAnalysis rd with
  | error e => rw [htech] at h; exact absurd h (by simp)
  | ok tech =>
    rw [htech] at h
    injection h with h
    rw [← h]
    exact ⟨rfl, rfl⟩

/-- C4 (witness). -/
theorem risk_score_passes_through_witness :
    v0.data.risk_score = rdEmpty.risk_score :=
  (risk_score_passes_through rdEmpty v0 (by rfl)).1

/-- C5 (counterexample).  The claim says a 2xx JSON response missing both
`risk_score` and `risk_level` yields Success with `risk_score = 0` and
`risk_level = "unknown"`.  The run does settle successfully, but both fields
are simply absent, not defaulted. -/
theorem missing_score_level_not_defaulted :
    isSuccessRun (analyzeWithRetry parseEmpty netEmpty200 3 1000) = true
    ∧ resultRiskScore (analyzeWithRetry parseEmpty netEmpty200 3 1000) ≠ some (some 0)
    ∧ resultRiskLevel (analyzeWithRetry parseEmpty netEmpty200 3 1000) ≠ some (some "unknown") :=
  ⟨rfl, by decide, by decide⟩

/-- C5 (amended).  A response missing both `risk_score` and `risk_level`
that normalizes successfully yields a Success whose `risk_score` and
`risk_level` fields are absent (`undefined`), the defaults 0 and "unknown"
appearing only inside the technical-analysis display text. -/
theorem missing_score_level_passthrough (rd : ResponseData) (v : AnalyzeSuccess)
    (hsc : rd.risk_score = none) (hlv : rd.risk_level = none)
    (h : buildStructured rd = Except.ok v) :
    v.data.risk_score = none ∧ v.data.risk_level = none := by
  unfold buildStructured at h
  cases htech : extractTechnicalAnalysis rd with
  | error e => rw [htech] at h; exact absurd h (by simp)
  | ok tech =>
    rw [htech] at h
    injection h with h
    rw [← h]
    exact ⟨hsc, hlv⟩

/-- C5 (witness). -/
theorem missing_score_level_passthrough_witness :
    v0.data.risk_score = none ∧ v0.data.risk_level = none :=
  missing_score_level_passthrough rdEmpty v0 rfl rfl (by rfl)

/-- C6 (confirmed).  Absent or empty input text is rejected by the message
listener before `analyzeWithRetry` is ever invoked: the response is the
no-content error and zero network calls are issued, whatever the parser,
network, retry count and delay would have been. -/
theorem empty_input_no_network (parse : String → Option ResponseData)
    (net : Nat → AttemptEvent) (retryCount delay : Nat) :
    handleAnalyzeEmail none parse net retryCount delay =
      (HandlerOutcome.errorResp noContentMsg, 0)
    ∧ handleAnalyzeEmail (some "") parse net retryCount delay =
      (HandlerOutcome.errorResp noContentMsg, 0) :=
  ⟨rfl, rfl⟩

/-- C7 (confirmed).  With the default three attempts, a server answering
500, 500, 200 yields Success after exactly 3 calls with the fixed 1000 ms
delay waited between consecutive calls, and a server answering 500 on every
attempt yields the server-error failure after exactly 3 calls — no more. -/
theorem retry_on_500_exactly_three_calls :
    analyzeWithRetry parseC7 netC7 3 1000 = ⟨some (Except.ok v0), 3, [1000, 1000]⟩
    ∧ analyzeWithRetry parseC7 netAll500 3 1000 =
        ⟨some (Except.error (httpError 500 "e500body")), 3, [1000, 1000]⟩ :=
  ⟨rfl, rfl⟩

/-- C8 (confirmed).  When the response body fails to parse as JSON on every
attempt — whatever the HTTP statuses, since the parse check precedes the
status check — the pipeline retries with the fixed delay while attempts
remain and finally rejects with the malformed-response error, whose message
embeds the first 100 UTF-16 units of the final raw body. -/
theorem invalid_json_retries_then_malformed
    (parse : String → Option ResponseData) (net : Nat → AttemptEvent)
    (stat : Nat → Nat) (bod : Nat → String) (k delay : Nat)
    (hnet : ∀ a, net a = AttemptEvent.response (stat a) (bod a))
    (hparse : ∀ a, parse (bod a) = none) :
    analyzeWithRetry parse net (k + 1) delay =
      ⟨some (Except.error (invalidJsonError (bod (k + 1)))), k + 1,
        List.replicate k delay⟩ := by
  unfold analyzeWithRetry
  have h := runLoop_parseFail parse net stat bod delay k (k + 1 + 1) 1 (by omega) hnet hparse
  rw [(by omega : 1 + k = k + 1)] at h
  exact h

/-- C8 (witness). -/
theorem invalid_json_retries_then_malformed_witness :
    analyzeWithRetry parseAbsent netBadJson 3 1000 =
      ⟨some (Except.error (invalidJsonError "this is not json")), 3,
        List.replicate 2 1000⟩ :=
  invalid_json_retries_then_malformed parseAbsent netBadJson (fun _ => 200)
    (fun _ => "this is not json") 2 1000 (fun _ => rfl) (fun _ => rfl)

/-- The spec-worded tail cascade coincides with the code's tail
(`aiAnalysisTail` inlines `blockedOrDefault`). -/
theorem claimedTailStages_eq_aiAnalysisTail (r : ResponseData) :
    claimedTailStages r = aiAnalysisTail r := by
  unfold claimedTailStages aiAnalysisTail blockedOrDefault
  cases aiCapture ["\n📋", "\n✅", "\n🚨"] (jsOrStr r.result "") <;> rfl

/-- When the AI-features branch is not taken, everything after the
detailed-analysis stage is the tail cascade. -/
theorem aiAnalysisRest_of_no_features (r : ResponseData)
    (h : hasAIFeaturesBranch r = false) : aiAnalysisRest r = aiAnalysisTail r := by
  unfold aiAnalysisRest
  unfold hasAIFeaturesBranch at h
  cases hf : r.features with
  | none => rfl
  | some f =>
    rw [hf] at h
    simp only [] at h
    simp [h]

/-- C9 (counterexample).  The claim gives a four-stage preference order for
`ai_analysis`, but the code has an intervening branch: when
`features.has_ai_analysis` is truthy (and `detailed_analysis` absent), a
synthesized feature summary is returned instead.  On
`{"features": {"has_ai_analysis": true}}` the code's derivation and the
claimed cascade disagree. -/
theorem ai_analysis_order_counterexample :
    extractAIAnalysis rdHasAI ≠ claimedAIAnalysis rdHasAI := by
  decide

/-- C9 (amended).  Whenever the AI-features branch does not fire
(`responseData.features && responseData.features.has_ai_analysis` is falsy),
the derivation follows exactly the claimed preference order: the dedicated
detailed-analysis field when non-blank, else the labeled section extracted
by the fixed delimiter pattern, else the blocked-analysis message, else the
not-available message — and it is a pure function of the payload. -/
theorem ai_analysis_order_without_features_branch (r : ResponseData)
    (h : hasAIFeaturesBranch r = false) :
    extractAIAnalysis r = claimedAIAnalysis r := by
  unfold extractAIAnalysis claimedAIAnalysis
  rw [claimedTailStages_eq_aiAnalysisTail, ← aiAnalysisRest_of_no_features r h]
  cases r.detailed_analysis with
  | none => rfl
  | some s =>
    by_cases hs : s = ""
    · subst hs
      rfl
    · simp [hs]

/-- C9 (witness). -/
theorem ai_analysis_order_witness :
    extractAIAnalysis rdEmpty = claimedAIAnalysis rdEmpty :=
  ai_analysis_order_without_features_branch rdEmpty rfl

/-- C10 (confirmed).  A `detailed_analysis` string that is all whitespace is
treated as absent — the derivation proceeds exactly as if the field were
missing — while a `detailed_analysis` containing non-whitespace makes
`ai_analysis` its trimmed value. -/
theorem blank_detailed_analysis_ignored (r : ResponseData) (s : String)
    (h : r.detailed_analysis = some s) :
    (jsTrim s = "" →
      extractAIAnalysis r = extractAIAnalysis { r with detailed_analysis := none })
    ∧ (jsTrim s ≠ "" → extractAIAnalysis r = jsTrim s) := by
  constructor
  · intro hb
    unfold extractAIAnalysis
    rw [h]
    simp only [hb]
    simp [aiAnalysisRest, aiAnalysisTail]
  · intro hnb
    have hs : s ≠ "" := by
      intro he
      exact hnb (by rw [he]; rfl)
    unfold extractAIAnalysis
    rw [h]
    simp [hs, hnb]

/-- C10 (witness). -/
theorem blank_detailed_analysis_ignored_witness :
    extractAIAnalysis rdPadded = jsTrim "  hi  " :=
  (blank_detailed_analysis_ignored rdPadded "  hi  " rfl).2 (by decide)

end PhishGuard
